import Mathlib

/-!
A shallow embedding of the state-management testbed's shared document /
workspace domain and of its state-management variants: the vanilla redux
store (src/app/redux/vanilla), the effect-atom document repository service
(src/app/effect-atom/document-repository.service.ts), the redux-saga slice
and sagas (src/app/redux/sagas), the mobx-keystone document model and the
redux-toolkit thunks slice.  JavaScript string-keyed objects are modelled as
association lists in key insertion order; simulated asynchronous operations
(which run sequentially on the single-threaded event loop) are modelled as
`Except`-valued functions, a thrown `Error` being `Except.error` of its
message.
-/

namespace StateBed

/-- A page record `{ id, title, content }`, shared by all variants. -/
structure Page where
  id : String
  title : String
  content : String
deriving DecidableEq

/-- A document record `{ id, path, title, pages, workspaceIds }` as used by
the vanilla redux, effect-atom, mobx-keystone, zustand and redux-toolkit
thunks variants. -/
structure Document where
  id : String
  path : String
  title : String
  pages : List Page
  workspaceIds : List String
deriving DecidableEq

/-- A workspace record `{ id, name }` as stored in workspace state. -/
structure Workspace where
  id : String
  name : String
deriving DecidableEq

/-- A workspace as returned by the simulated workspace fetch: `{ id, name,
documents }`, the embedded documents being stripped off before the workspace
is stored. -/
structure WorkspaceFixture where
  id : String
  name : String
  documents : List Document
deriving DecidableEq

/-- A JavaScript object with string keys, modelled as an association list in
key insertion order (string-keyed JS objects enumerate keys in insertion
order, and all states built by the code keep one entry per key). -/
abbrev JsRecord (α : Type) := List (String × α)

/-- Reading `object[key]`: the value at the first matching key, `none` when
the key is absent (JS `undefined`). -/
def getKey {α : Type} (s : JsRecord α) (k : String) : Option α :=
  match s with
  | [] => none
  | (k', v) :: rest => if k' = k then some v else getKey rest k

/-- The JS object spread update `{ ...object, [key]: value }`: replaces the
value at an existing key in place, otherwise appends the new key at the end. -/
def setKey {α : Type} (s : JsRecord α) (k : String) (v : α) : JsRecord α :=
  match s with
  | [] => [(k, v)]
  | (k', v') :: rest => if k' = k then (k, v) :: rest else (k', v') :: setKey rest k v

/-- The JS `delete object[key]` operation. -/
def deleteKey {α : Type} (s : JsRecord α) (k : String) : JsRecord α :=
  s.filter (fun p => p.1 ≠ k)

namespace Vanilla

/-- Document state of the vanilla redux store: `Record<string, Document>`. -/
abbrev DocumentsState := JsRecord Document

/-- Workspace state of the vanilla redux store: `Record<string, Workspace>`. -/
abbrev WorkspacesState := JsRecord Workspace

/-- The five action creators of src/app/redux/vanilla (DOCUMENT_ADDED,
DOCUMENT_PAGE_ADDED, DOCUMENT_REMOVED, DOCUMENT_ADDED_TO_WORKSPACE,
WORKSPACES_SET) with their payloads. -/
inductive AppAction where
  | addDocument (document : Document)
  | addPage (documentId : String) (page : Page)
  | removeDocument (documentId : String)
  | addDocumentToWorkspace (documentId : String) (workspaceId : String)
  | setWorkspaces (workspaces : List Workspace)

/-- The `documentsReducer` of src/app/redux/vanilla/store.ts. -/
def documentsReducer (state : DocumentsState) (action : AppAction) : DocumentsState :=
  match action with
  | .addDocument document => setKey state document.id document
  | .addPage documentId page =>
    match getKey state documentId with
    | none => state
    | some existing =>
      setKey state existing.id { existing with pages := existing.pages ++ [page] }
  | .removeDocument documentId => deleteKey state documentId
  | .addDocumentToWorkspace documentId workspaceId =>
    match getKey state documentId with
    | none => state
    | some existing =>
      if workspaceId ∈ existing.workspaceIds then state
      else
        setKey state existing.id
          { existing with workspaceIds := existing.workspaceIds ++ [workspaceId] }
  | .setWorkspaces _ => state

/-- The `workspacesReducer` of src/app/redux/vanilla/store.ts: WORKSPACES_SET
merges each `{ id, name }` into the existing record. -/
def workspacesReducer (state : WorkspacesState) (action : AppAction) : WorkspacesState :=
  match action with
  | .setWorkspaces workspaces =>
    workspaces.foldl
      (fun next workspace => setKey next workspace.id { id := workspace.id, name := workspace.name })
      state
  | _ => state

/-- The combined root state `{ documents, workspaces }`. -/
structure RootState where
  documents : DocumentsState
  workspaces : WorkspacesState
deriving DecidableEq

/-- The `rootReducer` built with `combineReducers`. -/
def rootReducer (state : RootState) (action : AppAction) : RootState :=
  { documents := documentsReducer state.documents action
    workspaces := workspacesReducer state.workspaces action }

/-- The initial store state: both slices start from `{}`. -/
def initialRootState : RootState := { documents := [], workspaces := [] }

/-- The simulated `createDocumentDirectory` of src/app/redux/vanilla/thunks.ts:
resolves to `C:/Users/trey/<id>` after a fixed delay. -/
def createDocumentDirectory (id : String) : Except String String :=
  .ok ("C:/Users/trey/" ++ id)

/-- The simulated `createPageDirectory` of src/app/redux/vanilla/thunks.ts:
resolves to `<path>/<id>` after a fixed delay. -/
def createPageDirectory (path : String) (id : String) : Except String String :=
  .ok (path ++ "/" ++ id)

/-- The simulated `writePageContents` of src/app/redux/vanilla/thunks.ts:
always throws `new Error("LOL")`. -/
def writePageContents (_path : String) (_content : String) : Except String Unit :=
  .error "LOL"

/-- The fixture document `doc-workspace-1-1` of the simulated workspace fetch. -/
def docWorkspace11 : Document :=
  { id := "doc-workspace-1-1", path := "C:/Users/trey/workspace-1/doc-1"
    title := "Personal Website", pages := [], workspaceIds := ["workspace-1"] }

/-- The fixture document `doc-workspace-1-2` of the simulated workspace fetch. -/
def docWorkspace12 : Document :=
  { id := "doc-workspace-1-2", path := "C:/Users/trey/workspace-1/doc-2"
    title := "Side Project Ideas", pages := [], workspaceIds := ["workspace-1"] }

/-- The fixture document `doc-workspace-2-1` of the simulated workspace fetch. -/
def docWorkspace21 : Document :=
  { id := "doc-workspace-2-1", path := "C:/Users/trey/workspace-2/doc-1"
    title := "Q4 Planning", pages := [], workspaceIds := ["workspace-2"] }

/-- The fixture document `doc-workspace-3-1` of the simulated workspace fetch. -/
def docWorkspace31 : Document :=
  { id := "doc-workspace-3-1", path := "C:/Users/trey/workspace-3/doc-1"
    title := "State Management Comparison", pages := [], workspaceIds := ["workspace-3"] }

/-- The fixture document `doc-workspace-3-2` of the simulated workspace fetch. -/
def docWorkspace32 : Document :=
  { id := "doc-workspace-3-2", path := "C:/Users/trey/workspace-3/doc-2"
    title := "React Patterns", pages := [], workspaceIds := ["workspace-3"] }

/-- The workspace fixture returned by `fetchWorkspacesData` in
src/app/redux/vanilla/thunks.ts. -/
def workspacesFixture : List WorkspaceFixture :=
  [ { id := "workspace-1", name := "Personal Projects"
      documents := [docWorkspace11, docWorkspace12] }
  , { id := "workspace-2", name := "Work Documents"
      documents := [docWorkspace21] }
  , { id := "workspace-3", name := "Research"
      documents := [docWorkspace31, docWorkspace32] } ]

/-- The simulated `fetchWorkspacesData` of src/app/redux/vanilla/thunks.ts:
always resolves to the fixture after a fixed delay. -/
def fetchWorkspacesData : Except String (List WorkspaceFixture) :=
  .ok workspacesFixture

/-- The document literal built by the `createDocument` thunk for a freshly
generated `documentId`. -/
def newDocument (documentId : String) : Document :=
  { id := documentId, path := "C:/Users/trey/" ++ documentId
    title := "New Document", pages := [], workspaceIds := [] }

/-- The page literal built by the `createDocument` thunk for a freshly
generated `pageId`. -/
def newPage (pageId : String) : Page :=
  { id := pageId, title := "New Page", content := "" }

/-- The `createDocument` thunk of src/app/redux/vanilla/thunks.ts as a state
transformer, the two generated UUIDs being passed in as parameters.  It
dispatches `addDocument` and `addPage` optimistically, then awaits the
simulated directory operations; a `createDocumentDirectory` failure dispatches
`removeDocument`, while a failure of `createPageDirectory` or
`writePageContents` is only logged. -/
def createDocument (s : RootState) (documentId : String) (pageId : String) : RootState :=
  let s1 := rootReducer s (.addDocument (newDocument documentId))
  let s2 := rootReducer s1 (.addPage documentId (newPage pageId))
  match createDocumentDirectory documentId with
  | .error _ => rootReducer s2 (.removeDocument documentId)
  | .ok path =>
    match createPageDirectory path pageId with
    | .error _ => s2
    | .ok pagePath =>
      match writePageContents pagePath "" with
      | .error _ => s2
      | .ok _ => s2

/-- The store state reached by the `createDocument` thunk just before the
`writePageContents` step: the two optimistic dispatches have been applied and
the directory steps (which do not touch the store) have resolved. -/
def createDocumentUntilWrite (s : RootState) (documentId : String) (pageId : String) : RootState :=
  rootReducer (rootReducer s (.addDocument (newDocument documentId)))
    (.addPage documentId (newPage pageId))

/-- The document value present in the store once a `createDocument` workflow
has settled: the optimistic document with its single optimistic page. -/
def createdDocument (documentId : String) (pageId : String) : Document :=
  { id := documentId, path := "C:/Users/trey/" ++ documentId
    title := "New Document", pages := [newPage pageId], workspaceIds := [] }

/-- The `fetchWorkspaces` thunk of src/app/redux/vanilla/thunks.ts as a state
transformer: on success it dispatches `addDocument` for every embedded
document (in order) and then `setWorkspaces` with the stripped workspaces. -/
def fetchWorkspaces (s : RootState) : RootState :=
  match fetchWorkspacesData with
  | .error _ => s
  | .ok workspaces =>
    let s1 := workspaces.foldl
      (fun st workspace =>
        workspace.documents.foldl
          (fun st2 document => rootReducer st2 (.addDocument document)) st)
      s
    rootReducer s1
      (.setWorkspaces (workspaces.map fun workspace =>
        { id := workspace.id, name := workspace.name }))

end Vanilla

namespace EffectAtom

/-- Document state of the effect-atom repository: `Record<string, Document>`
held in a `SubscriptionRef`. -/
abbrev DocumentsState := JsRecord Document

/-- Workspace state of the effect-atom repository. -/
abbrev WorkspacesState := JsRecord Workspace

/-- The `createDocumentDirectory` effect of
src/app/effect-atom/document-repository.service.ts: it sleeps and returns the
path, its error channel being `never`. -/
def createDocumentDirectory (id : String) : String :=
  "C:/Users/trey/" ++ id

/-- The `createPageDirectory` effect of the repository service: it sleeps and
returns the page path, its error channel being `never`. -/
def createPageDirectory (path : String) (id : String) : String :=
  path ++ "/" ++ id

/-- The `writePageContents` effect of the repository service:
`Effect.fail(new Error("LOL"))` for every input. -/
def writePageContents (_path : String) (_content : String) : Except String Unit :=
  .error "LOL"

/-- The `SubscriptionRef.update` function used by `createPage`: inserts the
page into the document at key `documentId`, returning the state unchanged when
the key is absent. -/
def insertPageUpdate (documents : DocumentsState) (documentId : String) (page : Page) :
    DocumentsState :=
  match getKey documents documentId with
  | none => documents
  | some document =>
    setKey documents documentId { document with pages := document.pages ++ [page] }

/-- The `createPage` workflow of the repository service: optimistically
inserts the page, resolves the page directory, then runs `writePageContents`
(whose failure propagates to the caller alongside the already-updated state). -/
def createPage (documents : DocumentsState) (documentId : String) (path : String)
    (pageId : String) : DocumentsState × Except String Unit :=
  let page : Page := { id := pageId, title := "New Page", content := "" }
  let s1 := insertPageUpdate documents documentId page
  let pagePath := createPageDirectory path pageId
  match writePageContents pagePath "" with
  | .error e => (s1, .error e)
  | .ok _ => (s1, .ok ())

/-- The document literal built by the repository's `createDocument` effect. -/
def newDocument (documentId : String) : Document :=
  { id := documentId, path := "C:/Users/trey/" ++ documentId
    title := "New Document", pages := [], workspaceIds := [] }

/-- The `createDocument` workflow of the repository service as a state
transformer on the documents ref, the generated UUIDs passed as parameters:
it inserts the document at key `documentId`, resolves the directory, and runs
`createPage` under `Effect.catchAll` (the failure is only logged). -/
def createDocument (documents : DocumentsState) (documentId : String) (pageId : String) :
    DocumentsState :=
  let s1 := setKey documents documentId (newDocument documentId)
  let documentPath := createDocumentDirectory documentId
  (createPage s1 documentId documentPath pageId).1

/-- The documents state reached by the effect-atom `createDocument` workflow
just before the failing `writePageContents` step. -/
def createDocumentUntilWrite (documents : DocumentsState) (documentId : String)
    (pageId : String) : DocumentsState :=
  insertPageUpdate (setKey documents documentId (newDocument documentId)) documentId
    { id := pageId, title := "New Page", content := "" }

/-- The document value present in the documents ref once an effect-atom
`createDocument` workflow has settled. -/
def createdDocument (documentId : String) (pageId : String) : Document :=
  { id := documentId, path := "C:/Users/trey/" ++ documentId
    title := "New Document"
    pages := [{ id := pageId, title := "New Page", content := "" }]
    workspaceIds := [] }

/-- The `addDocumentToWorkspace` update of the repository service: a no-op
when the document is missing or the workspace id already present, otherwise it
appends the workspace id at key `documentId`. -/
def addDocumentToWorkspace (documents : DocumentsState) (documentId : String)
    (workspaceId : String) : DocumentsState :=
  match getKey documents documentId with
  | none => documents
  | some document =>
    if workspaceId ∈ document.workspaceIds then documents
    else
      setKey documents documentId
        { document with workspaceIds := document.workspaceIds ++ [workspaceId] }

/-- The workspace fixture of the repository's `fetchWorkspaces` effect (the
same literal as the vanilla thunk's). -/
def workspacesFixture : List WorkspaceFixture :=
  [ { id := "workspace-1", name := "Personal Projects"
      documents :=
        [ { id := "doc-workspace-1-1", path := "C:/Users/trey/workspace-1/doc-1"
            title := "Personal Website", pages := [], workspaceIds := ["workspace-1"] }
        , { id := "doc-workspace-1-2", path := "C:/Users/trey/workspace-1/doc-2"
            title := "Side Project Ideas", pages := [], workspaceIds := ["workspace-1"] } ] }
  , { id := "workspace-2", name := "Work Documents"
      documents :=
        [ { id := "doc-workspace-2-1", path := "C:/Users/trey/workspace-2/doc-1"
            title := "Q4 Planning", pages := [], workspaceIds := ["workspace-2"] } ] }
  , { id := "workspace-3", name := "Research"
      documents :=
        [ { id := "doc-workspace-3-1", path := "C:/Users/trey/workspace-3/doc-1"
            title := "State Management Comparison", pages := []
            workspaceIds := ["workspace-3"] }
        , { id := "doc-workspace-3-2", path := "C:/Users/trey/workspace-3/doc-2"
            title := "React Patterns", pages := [], workspaceIds := ["workspace-3"] } ] } ]

/-- The `SubscriptionRef.update` run by the repository's `fetchWorkspaces`
effect on the documents ref: `next[document.id] = document` for every embedded
fixture document, in order. -/
def fetchWorkspacesDocumentsUpdate (documents : DocumentsState) : DocumentsState :=
  workspacesFixture.foldl
    (fun next workspace =>
      workspace.documents.foldl (fun n document => setKey n document.id document) next)
    documents

/-- The workspaces record built by the repository's `fetchWorkspaces` effect
and written with `SubscriptionRef.set` (replacing the previous record). -/
def fetchWorkspacesRecord : WorkspacesState :=
  workspacesFixture.foldl
    (fun rec workspace => setKey rec workspace.id { id := workspace.id, name := workspace.name })
    []

end EffectAtom

namespace Sagas

/-- The `Document` type of src/app/redux/sagas/documents.slice.ts: unlike the
other variants it has no `workspaceIds` field. -/
structure Document where
  id : String
  path : String
  title : String
  pages : List Page
deriving DecidableEq

/-- Document state of the saga store: `Record<string, Document>`. -/
abbrev DocumentsState := JsRecord Document

/-- The `addDocument` reducer of the saga documents slice. -/
def addDocument (state : DocumentsState) (document : Document) : DocumentsState :=
  setKey state document.id document

/-- The `addPage` reducer of the saga documents slice:
`state[documentId].pages.push(page)`.  When the key is absent the reducer
throws a `TypeError` (reading `pages` of `undefined`), modelled as `none`. -/
def addPage (state : DocumentsState) (documentId : String) (page : Page) :
    Option DocumentsState :=
  match getKey state documentId with
  | none => none
  | some document =>
    some (setKey state documentId { document with pages := document.pages ++ [page] })

/-- The `removeDocument` reducer of the saga documents slice. -/
def removeDocument (state : DocumentsState) (documentId : String) : DocumentsState :=
  deleteKey state documentId

/-- The simulated `createDocumentDirectory` generator of
src/app/redux/sagas/documents.sagas.ts. -/
def createDocumentDirectory (id : String) : Except String String :=
  .ok ("C:/Users/trey/" ++ id)

/-- The simulated `createPageDirectory` generator of the saga file. -/
def createPageDirectory (path : String) (id : String) : Except String String :=
  .ok (path ++ "/" ++ id)

/-- The simulated `writePageContents` generator of the saga file: always
throws `new Error("LOL")`. -/
def writePageContents (_path : String) (_content : String) : Except String Unit :=
  .error "LOL"

/-- The document literal built by `createDocumentSaga`. -/
def newDocument (id : String) : Document :=
  { id := id, path := "C:/Users/trey/" ++ id, title := "New Document", pages := [] }

/-- The `createPageSaga` worker of the saga file: it optimistically puts
`addPage`, resolves the page directory, then calls `writePageContents`; its
catch block logs and rethrows, so the error reaches the caller with the
optimistic update still applied. -/
def createPageSaga (state : DocumentsState) (documentId : String) (path : String)
    (pageId : String) : DocumentsState × Except String Unit :=
  let page : Page := { id := pageId, title := "New Page", content := "" }
  match addPage state documentId page with
  | none => (state, .error "TypeError")
  | some s1 =>
    match createPageDirectory path pageId with
    | .error e => (s1, .error e)
    | .ok pagePath =>
      match writePageContents pagePath "" with
      | .error e => (s1, .error e)
      | .ok _ => (s1, .ok ())

/-- The `createDocumentSaga` worker of the saga file as a state transformer,
the generated UUIDs passed as parameters: it optimistically puts
`addDocument`, resolves the document directory, and calls `createPageSaga`;
its catch block only logs, leaving the state as the inner saga left it. -/
def createDocumentSaga (state : DocumentsState) (id : String) (pageId : String) :
    DocumentsState :=
  let s1 := addDocument state (newDocument id)
  match createDocumentDirectory id with
  | .error _ => s1
  | .ok path => (createPageSaga s1 id path pageId).1

/-- The saga store state reached just before the failing `writePageContents`
step of `createDocumentSaga` (document and page optimistically inserted). -/
def createDocumentSagaUntilWrite (state : DocumentsState) (id : String)
    (pageId : String) : DocumentsState :=
  (addPage (addDocument state (newDocument id)) id
      { id := pageId, title := "New Page", content := "" }).getD
    (addDocument state (newDocument id))

/-- The document value present in the saga store once a `createDocumentSaga`
workflow has settled. -/
def createdDocument (id : String) (pageId : String) : Document :=
  { id := id, path := "C:/Users/trey/" ++ id, title := "New Document"
    pages := [{ id := pageId, title := "New Page", content := "" }] }

/-- The workspace fixture returned by `fetchWorkspacesFromDB` in the saga
workspaces file (the same literal as the other variants). -/
def workspacesFixture : List WorkspaceFixture :=
  [ { id := "workspace-1", name := "Personal Projects"
      documents :=
        [ { id := "doc-workspace-1-1", path := "C:/Users/trey/workspace-1/doc-1"
            title := "Personal Website", pages := [], workspaceIds := ["workspace-1"] }
        , { id := "doc-workspace-1-2", path := "C:/Users/trey/workspace-1/doc-2"
            title := "Side Project Ideas", pages := [], workspaceIds := ["workspace-1"] } ] }
  , { id := "workspace-2", name := "Work Documents"
      documents :=
        [ { id := "doc-workspace-2-1", path := "C:/Users/trey/workspace-2/doc-1"
            title := "Q4 Planning", pages := [], workspaceIds := ["workspace-2"] } ] }
  , { id := "workspace-3", name := "Research"
      documents :=
        [ { id := "doc-workspace-3-1", path := "C:/Users/trey/workspace-3/doc-1"
            title := "State Management Comparison", pages := []
            workspaceIds := ["workspace-3"] }
        , { id := "doc-workspace-3-2", path := "C:/Users/trey/workspace-3/doc-2"
            title := "React Patterns", pages := [], workspaceIds := ["workspace-3"] } ] } ]

/-- The simulated `fetchWorkspacesFromDB` generator of the saga workspaces
file: always returns the fixture after a fixed delay. -/
def fetchWorkspacesFromDB : Except String (List WorkspaceFixture) :=
  .ok workspacesFixture

end Sagas

namespace Mobx

/-- The `Document.addToWorkspace` model action of the mobx-keystone documents
model: pushes the workspace id unless it is already included. -/
def addToWorkspace (workspaceIds : List String) (workspaceId : String) : List String :=
  if workspaceId ∈ workspaceIds then workspaceIds else workspaceIds ++ [workspaceId]

end Mobx

namespace Thunks

/-- Document state of the redux-toolkit thunks slice. -/
abbrev DocumentsState := JsRecord Document

/-- The `addDocumentToWorkspace` reducer of the redux-toolkit thunks documents
slice: pushes the workspace id onto the document at key `documentId` when the
document exists and does not already include it. -/
def addDocumentToWorkspace (state : DocumentsState) (documentId : String)
    (workspaceId : String) : DocumentsState :=
  match getKey state documentId with
  | none => state
  | some document =>
    if workspaceId ∈ document.workspaceIds then state
    else
      setKey state documentId
        { document with workspaceIds := document.workspaceIds ++ [workspaceId] }

end Thunks

namespace Vanilla

/-- One demonstrated user operation of the vanilla variant: the create-document
workflow (with its two generated UUIDs), the fetch-workspaces workflow, and
the add-document-to-workspace dispatch. -/
inductive Op where
  | createDoc (documentId : String) (pageId : String)
  | fetchWs
  | addToWs (documentId : String) (workspaceId : String)

/-- Running one demonstrated operation against the vanilla store. -/
def applyOp (s : RootState) : Op → RootState
  | .createDoc documentId pageId => createDocument s documentId pageId
  | .fetchWs => fetchWorkspaces s
  | .addToWs documentId workspaceId =>
    rootReducer s (.addDocumentToWorkspace documentId workspaceId)

/-- Running a sequence of demonstrated operations against the vanilla store. -/
def applyOps (s : RootState) (ops : List Op) : RootState :=
  ops.foldl applyOp s

/-- The spec invariant: every stored document's `workspaceIds` list is free of
duplicates. -/
def NodupWorkspaceIds (s : RootState) : Prop :=
  ∀ p ∈ s.documents, p.2.workspaceIds.Nodup

instance (s : RootState) : Decidable (NodupWorkspaceIds s) :=
  inferInstanceAs (Decidable (∀ p ∈ s.documents, p.2.workspaceIds.Nodup))

/-- Running the `createDocument` thunk once per listed pair of generated
(document id, page id). -/
def createDocuments (s : RootState) (pairs : List (String × String)) : RootState :=
  pairs.foldl (fun st pr => createDocument st pr.1 pr.2) s

/-- The list of fixture document ids inserted by every fetch-workspaces
workflow. -/
def fixtureDocumentIds : List String :=
  [ "doc-workspace-1-1", "doc-workspace-1-2", "doc-workspace-2-1"
  , "doc-workspace-3-1", "doc-workspace-3-2" ]

end Vanilla

/-- A concrete document used to instantiate the stated theorems on a sample
store state. -/
def sampleDocument : Document :=
  { id := "doc-a", path := "C:/Users/trey/doc-a", title := "Sample"
    pages := [], workspaceIds := ["workspace-9"] }

/-- A concrete document whose `workspaceIds` already holds the same workspace
id twice; no demonstrated workflow produces it, but it is a well-typed value
of the stores' state type. -/
def duplicatedDocument : Document :=
  { id := "doc-a", path := "C:/Users/trey/doc-a", title := "Sample"
    pages := [], workspaceIds := ["workspace-9", "workspace-9"] }

theorem getKey_setKey_self {α : Type} (s : JsRecord α) (k : String) (v : α) :
    getKey (setKey s k v) k = some v := by
  induction s with
  | nil => simp [getKey, setKey]
  | cons p rest ih =>
    obtain ⟨k', v'⟩ := p
    by_cases h : k' = k
    · simp [setKey, getKey, h]
    · simp [setKey, getKey, h, ih]

theorem getKey_setKey_ne {α : Type} (s : JsRecord α) {k k' : String} (v : α)
    (h : k' ≠ k) : getKey (setKey s k v) k' = getKey s k' := by
  induction s with
  | nil => simp [getKey, setKey, Ne.symm h]
  | cons p rest ih =>
    obtain ⟨k₀, v₀⟩ := p
    by_cases h₀ : k₀ = k
    · subst h₀
      simp [setKey, getKey, Ne.symm h]
    · simp only [setKey, h₀, if_false, getKey]
      by_cases h₁ : k₀ = k'
      · simp [h₁]
      · simp [h₁, ih]

theorem mem_of_getKey {α : Type} {s : JsRecord α} {k : String} {v : α}
    (h : getKey s k = some v) : (k, v) ∈ s := by
  induction s with
  | nil => simp [getKey] at h
  | cons p rest ih =>
    obtain ⟨k', v'⟩ := p
    by_cases h' : k' = k
    · subst h'
      simp [getKey] at h
      simp [h]
    · simp [getKey, h'] at h
      exact List.mem_cons_of_mem _ (ih h)

theorem forall_values_setKey {α : Type} {P : α → Prop} {s : JsRecord α}
    (hs : ∀ p ∈ s, P p.2) {k : String} {v : α} (hv : P v) :
    ∀ p ∈ setKey s k v, P p.2 := by
  induction s with
  | nil =>
    intro p hp
    simp [setKey] at hp
    simp [hp, hv]
  | cons q rest ih =>
    obtain ⟨k', v'⟩ := q
    by_cases h : k' = k
    · intro p hp
      simp only [setKey, h, if_true] at hp
      rcases List.mem_cons.mp hp with h₁ | h₁
      · simp [h₁, hv]
      · exact hs p (List.mem_cons_of_mem _ h₁)
    · intro p hp
      simp only [setKey, h, if_false] at hp
      rcases List.mem_cons.mp hp with h₁ | h₁
      · exact h₁ ▸ hs _ (List.mem_cons_self _ _)
      · exact ih (fun q hq => hs q (List.mem_cons_of_mem _ hq)) p h₁

theorem nodup_append_singleton {l : List String} {w : String}
    (h : l.Nodup) (hm : w ∉ l) : (l ++ [w]).Nodup := by
  simp [List.nodup_append, h, List.disjoint_left]
  exact hm

namespace Vanilla

theorem documentsReducer_addPage_found {state : DocumentsState} {documentId : String}
    {existing : Document} (h : getKey state documentId = some existing) (page : Page) :
    documentsReducer state (.addPage documentId page)
      = setKey state existing.id { existing with pages := existing.pages ++ [page] } := by
  simp [documentsReducer, h]

theorem documentsReducer_addPage_missing {state : DocumentsState} {documentId : String}
    (h : getKey state documentId = none) (page : Page) :
    documentsReducer state (.addPage documentId page) = state := by
  simp [documentsReducer, h]

theorem documentsReducer_addToWorkspace_missing {state : DocumentsState}
    {documentId : String} (h : getKey state documentId = none) (workspaceId : String) :
    documentsReducer state (.addDocumentToWorkspace documentId workspaceId) = state := by
  simp [documentsReducer, h]

theorem documentsReducer_addToWorkspace_mem {state : DocumentsState}
    {documentId workspaceId : String} {existing : Document}
    (h : getKey state documentId = some existing)
    (hm : workspaceId ∈ existing.workspaceIds) :
    documentsReducer state (.addDocumentToWorkspace documentId workspaceId) = state := by
  simp [documentsReducer, h, hm]

theorem documentsReducer_addToWorkspace_new {state : DocumentsState}
    {documentId workspaceId : String} {existing : Document}
    (h : getKey state documentId = some existing)
    (hm : workspaceId ∉ existing.workspaceIds) :
    documentsReducer state (.addDocumentToWorkspace documentId workspaceId)
      = setKey state existing.id
          { existing with workspaceIds := existing.workspaceIds ++ [workspaceId] } := by
  simp [documentsReducer, h, hm]

theorem createDocument_eq_untilWrite (s : RootState) (documentId pageId : String) :
    createDocument s documentId pageId = createDocumentUntilWrite s documentId pageId := rfl

theorem getKey_createDocument_self (s : RootState) (documentId pageId : String) :
    getKey (createDocument s documentId pageId).documents documentId
      = some (createdDocument documentId pageId) := by
  have h1 : getKey (rootReducer s (.addDocument (newDocument documentId))).documents documentId
      = some (newDocument documentId) := by
    simpa [rootReducer, documentsReducer, newDocument] using
      getKey_setKey_self s.documents documentId (newDocument documentId)
  rw [createDocument_eq_untilWrite]
  show getKey (documentsReducer (rootReducer s (.addDocument (newDocument documentId))).documents
      (.addPage documentId (newPage pageId))) documentId = _
  rw [documentsReducer_addPage_found h1]
  simpa [newDocument, createdDocument] using
    getKey_setKey_self (rootReducer s (.addDocument (newDocument documentId))).documents
      documentId (createdDocument documentId pageId)

theorem getKey_createDocument_ne (s : RootState) {k documentId : String} (pageId : String)
    (h : k ≠ documentId) :
    getKey (createDocument s documentId pageId).documents k = getKey s.documents k := by
  have h1 : getKey (rootReducer s (.addDocument (newDocument documentId))).documents documentId
      = some (newDocument documentId) := by
    simpa [rootReducer, documentsReducer, newDocument] using
      getKey_setKey_self s.documents documentId (newDocument documentId)
  rw [createDocument_eq_untilWrite]
  show getKey (documentsReducer (rootReducer s (.addDocument (newDocument documentId))).documents
      (.addPage documentId (newPage pageId))) k = _
  rw [documentsReducer_addPage_found h1]
  rw [show (newDocument documentId).id = documentId from rfl]
  rw [getKey_setKey_ne _ _ h]
  show getKey (documentsReducer s.documents (.addDocument (newDocument documentId))) k = _
  simp only [documentsReducer]
  rw [show (newDocument documentId).id = documentId from rfl]
  exact getKey_setKey_ne _ _ h

end Vanilla

namespace EffectAtom

theorem createDocument_eq_untilWrite_effect (documents : DocumentsState)
    (documentId pageId : String) :
    createDocument documents documentId pageId
      = createDocumentUntilWrite documents documentId pageId := rfl

theorem getKey_createDocument_self_effect (documents : DocumentsState)
    (documentId pageId : String) :
    getKey (createDocument documents documentId pageId) documentId
      = some (createdDocument documentId pageId) := by
  have h1 : getKey (setKey documents documentId (newDocument documentId)) documentId
      = some (newDocument documentId) := getKey_setKey_self _ _ _
  rw [createDocument_eq_untilWrite_effect]
  unfold createDocumentUntilWrite
  rw [show insertPageUpdate (setKey documents documentId (newDocument documentId)) documentId
        { id := pageId, title := "New Page", content := "" }
      = setKey (setKey documents documentId (newDocument documentId)) documentId
          (createdDocument documentId pageId) by
    simp only [insertPageUpdate, h1]
    simp [newDocument, createdDocument]]
  exact getKey_setKey_self _ _ _

end EffectAtom

namespace Sagas

theorem addPage_addDocument (state : DocumentsState) (id pageId : String) :
    addPage (addDocument state (newDocument id)) id
        { id := pageId, title := "New Page", content := "" }
      = some (setKey (addDocument state (newDocument id)) id (createdDocument id pageId)) := by
  have h1 : getKey (addDocument state (newDocument id)) id = some (newDocument id) := by
    simpa [addDocument, newDocument] using
      getKey_setKey_self state id (newDocument id)
  simp only [addPage, h1]
  simp [newDocument, createdDocument]

theorem createDocumentSaga_eq_untilWrite (state : DocumentsState) (id pageId : String) :
    createDocumentSaga state id pageId = createDocumentSagaUntilWrite state id pageId := by
  unfold createDocumentSaga createDocumentSagaUntilWrite
  simp only [createDocumentDirectory, createPageSaga, createPageDirectory,
    writePageContents, addPage_addDocument]
  rfl

theorem getKey_createDocumentSaga_self (state : DocumentsState) (id pageId : String) :
    getKey (createDocumentSaga state id pageId) id = some (createdDocument id pageId) := by
  rw [createDocumentSaga_eq_untilWrite]
  unfold createDocumentSagaUntilWrite
  rw [addPage_addDocument]
  exact getKey_setKey_self _ _ _

end Sagas

namespace Vanilla

theorem nodupInv_documentsReducer_addDocument {state : DocumentsState}
    (hs : ∀ p ∈ state, p.2.workspaceIds.Nodup) {document : Document}
    (hd : document.workspaceIds.Nodup) :
    ∀ p ∈ documentsReducer state (.addDocument document), p.2.workspaceIds.Nodup := by
  simpa [documentsReducer] using
    @forall_values_setKey Document (fun d => d.workspaceIds.Nodup) state hs
      document.id document hd

theorem nodupInv_documentsReducer_addPage {state : DocumentsState}
    (hs : ∀ p ∈ state, p.2.workspaceIds.Nodup) (documentId : String) (page : Page) :
    ∀ p ∈ documentsReducer state (.addPage documentId page), p.2.workspaceIds.Nodup := by
  cases h : getKey state documentId with
  | none => simpa [documentsReducer_addPage_missing h page] using hs
  | some existing =>
    rw [documentsReducer_addPage_found h page]
    exact @forall_values_setKey Document (fun d => d.workspaceIds.Nodup) state hs
      existing.id _ (hs _ (mem_of_getKey h))

theorem nodupInv_documentsReducer_addToWorkspace {state : DocumentsState}
    (hs : ∀ p ∈ state, p.2.workspaceIds.Nodup) (documentId workspaceId : String) :
    ∀ p ∈ documentsReducer state (.addDocumentToWorkspace documentId workspaceId),
      p.2.workspaceIds.Nodup := by
  cases h : getKey state documentId with
  | none => simpa [documentsReducer_addToWorkspace_missing h workspaceId] using hs
  | some existing =>
    by_cases hm : workspaceId ∈ existing.workspaceIds
    · simpa [documentsReducer_addToWorkspace_mem h hm] using hs
    · rw [documentsReducer_addToWorkspace_new h hm]
      exact @forall_values_setKey Document (fun d => d.workspaceIds.Nodup) state hs
        existing.id _ (nodup_append_singleton (hs _ (mem_of_getKey h)) hm)

theorem nodupInv_createDocument (s : RootState) (hs : NodupWorkspaceIds s)
    (documentId pageId : String) :
    NodupWorkspaceIds (createDocument s documentId pageId) := by
  rw [createDocument_eq_untilWrite]
  exact nodupInv_documentsReducer_addPage
    (nodupInv_documentsReducer_addDocument hs (by simp [newDocument])) _ _

theorem nodupInv_foldl_addDocument (docs : List Document) (s : RootState)
    (hs : NodupWorkspaceIds s) (hd : ∀ d ∈ docs, d.workspaceIds.Nodup) :
    NodupWorkspaceIds
      (docs.foldl (fun st document => rootReducer st (.addDocument document)) s) := by
  induction docs generalizing s with
  | nil => simpa using hs
  | cons d rest ih =>
    simp only [List.foldl_cons]
    exact ih _ (nodupInv_documentsReducer_addDocument hs (hd d (List.mem_cons_self _ _)))
      (fun d' hd' => hd d' (List.mem_cons_of_mem _ hd'))

theorem nodupInv_foldl_workspaces (ws : List WorkspaceFixture) (s : RootState)
    (hs : NodupWorkspaceIds s)
    (hd : ∀ w ∈ ws, ∀ d ∈ w.documents, d.workspaceIds.Nodup) :
    NodupWorkspaceIds
      (ws.foldl
        (fun st workspace =>
          workspace.documents.foldl
            (fun st2 document => rootReducer st2 (.addDocument document)) st)
        s) := by
  induction ws generalizing s with
  | nil => simpa using hs
  | cons w rest ih =>
    simp only [List.foldl_cons]
    exact ih _ (nodupInv_foldl_addDocument _ _ hs (hd w (List.mem_cons_self _ _)))
      (fun w' hw' => hd w' (List.mem_cons_of_mem _ hw'))

theorem nodupInv_fetchWorkspaces (s : RootState) (hs : NodupWorkspaceIds s) :
    NodupWorkspaceIds (fetchWorkspaces s) := by
  have h1 : NodupWorkspaceIds
      (workspacesFixture.foldl
        (fun st workspace =>
          workspace.documents.foldl
            (fun st2 document => rootReducer st2 (.addDocument document)) st)
        s) :=
    nodupInv_foldl_workspaces _ _ hs (by decide)
  intro p hp
  exact h1 p hp

theorem nodupInv_applyOp (s : RootState) (op : Op) (hs : NodupWorkspaceIds s) :
    NodupWorkspaceIds (applyOp s op) := by
  cases op with
  | createDoc documentId pageId => exact nodupInv_createDocument s hs documentId pageId
  | fetchWs => exact nodupInv_fetchWorkspaces s hs
  | addToWs documentId workspaceId =>
    exact nodupInv_documentsReducer_addToWorkspace hs documentId workspaceId

theorem nodupInv_applyOps (ops : List Op) (s : RootState) (hs : NodupWorkspaceIds s) :
    NodupWorkspaceIds (applyOps s ops) := by
  induction ops generalizing s with
  | nil => simpa [applyOps] using hs
  | cons op rest ih =>
    simp only [applyOps, List.foldl_cons]
    exact ih _ (nodupInv_applyOp s op hs)

theorem getKey_createDocuments_not_mem :
    ∀ (pairs : List (String × String)) (s : RootState) {k : String},
      k ∉ pairs.map Prod.fst →
      getKey (createDocuments s pairs).documents k = getKey s.documents k := by
  intro pairs
  induction pairs with
  | nil =>
    intro s k _
    rfl
  | cons pr rest ih =>
    intro s k h
    simp only [List.map_cons, List.mem_cons, not_or] at h
    show getKey (createDocuments (createDocument s pr.1 pr.2) rest).documents k = _
    rw [ih _ h.2, getKey_createDocument_ne _ _ h.1]

theorem getKey_createDocuments_mem :
    ∀ (pairs : List (String × String)) (s : RootState),
      (pairs.map Prod.fst).Nodup →
      ∀ pr ∈ pairs,
        getKey (createDocuments s pairs).documents pr.1
          = some (createdDocument pr.1 pr.2) := by
  intro pairs
  induction pairs with
  | nil =>
    intro s _ pr hpr
    simp at hpr
  | cons q rest ih =>
    intro s h pr hpr
    simp only [List.map_cons, List.nodup_cons] at h
    rcases List.mem_cons.mp hpr with h₁ | h₁
    · subst h₁
      show getKey (createDocuments (createDocument s pr.1 pr.2) rest).documents pr.1 = _
      rw [getKey_createDocuments_not_mem rest _ h.1]
      exact getKey_createDocument_self s pr.1 pr.2
    · show getKey (createDocuments (createDocument s q.1 q.2) rest).documents pr.1 = _
      exact ih _ h.2 pr h₁

theorem fetchWorkspaces_documents_eq (s : RootState) :
    (fetchWorkspaces s).documents
      = setKey (setKey (setKey (setKey (setKey s.documents
          "doc-workspace-1-1" docWorkspace11)
          "doc-workspace-1-2" docWorkspace12)
          "doc-workspace-2-1" docWorkspace21)
          "doc-workspace-3-1" docWorkspace31)
          "doc-workspace-3-2" docWorkspace32 := rfl

end Vanilla

namespace EffectAtom

theorem fetchWorkspacesDocumentsUpdate_eq (documents : DocumentsState) :
    fetchWorkspacesDocumentsUpdate documents
      = setKey (setKey (setKey (setKey (setKey documents
          "doc-workspace-1-1" Vanilla.docWorkspace11)
          "doc-workspace-1-2" Vanilla.docWorkspace12)
          "doc-workspace-2-1" Vanilla.docWorkspace21)
          "doc-workspace-3-1" Vanilla.docWorkspace31)
          "doc-workspace-3-2" Vanilla.docWorkspace32 := rfl

theorem insertPageUpdate_missing {documents : DocumentsState} {documentId : String}
    (h : getKey documents documentId = none) (page : Page) :
    insertPageUpdate documents documentId page = documents := by
  simp [insertPageUpdate, h]

theorem addDocumentToWorkspace_missing_effect {documents : DocumentsState}
    {documentId : String} (h : getKey documents documentId = none)
    (workspaceId : String) :
    addDocumentToWorkspace documents documentId workspaceId = documents := by
  simp [addDocumentToWorkspace, h]

theorem addDocumentToWorkspace_mem_effect {documents : DocumentsState}
    {documentId workspaceId : String} {document : Document}
    (h : getKey documents documentId = some document)
    (hm : workspaceId ∈ document.workspaceIds) :
    addDocumentToWorkspace documents documentId workspaceId = documents := by
  simp [addDocumentToWorkspace, h, hm]

theorem addDocumentToWorkspace_new_effect {documents : DocumentsState}
    {documentId workspaceId : String} {document : Document}
    (h : getKey documents documentId = some document)
    (hm : workspaceId ∉ document.workspaceIds) :
    addDocumentToWorkspace documents documentId workspaceId
      = setKey documents documentId
          { document with workspaceIds := document.workspaceIds ++ [workspaceId] } := by
  simp [addDocumentToWorkspace, h, hm]

end EffectAtom

namespace Thunks

theorem addDocumentToWorkspace_missing_thunks {state : DocumentsState}
    {documentId : String} (h : getKey state documentId = none)
    (workspaceId : String) :
    addDocumentToWorkspace state documentId workspaceId = state := by
  simp [addDocumentToWorkspace, h]

theorem addDocumentToWorkspace_mem_thunks {state : DocumentsState}
    {documentId workspaceId : String} {document : Document}
    (h : getKey state documentId = some document)
    (hm : workspaceId ∈ document.workspaceIds) :
    addDocumentToWorkspace state documentId workspaceId = state := by
  simp [addDocumentToWorkspace, h, hm]

theorem addDocumentToWorkspace_new_thunks {state : DocumentsState}
    {documentId workspaceId : String} {document : Document}
    (h : getKey state documentId = some document)
    (hm : workspaceId ∉ document.workspaceIds) :
    addDocumentToWorkspace state documentId workspaceId
      = setKey state documentId
          { document with workspaceIds := document.workspaceIds ++ [workspaceId] } := by
  simp [addDocumentToWorkspace, h, hm]

theorem nodupInv_addDocumentToWorkspace {state : DocumentsState}
    (hs : ∀ p ∈ state, p.2.workspaceIds.Nodup) (documentId workspaceId : String) :
    ∀ p ∈ addDocumentToWorkspace state documentId workspaceId,
      p.2.workspaceIds.Nodup := by
  cases h : getKey state documentId with
  | none => simpa [addDocumentToWorkspace_missing_thunks h workspaceId] using hs
  | some document =>
    by_cases hm : workspaceId ∈ document.workspaceIds
    · simpa [addDocumentToWorkspace_mem_thunks h hm] using hs
    · rw [addDocumentToWorkspace_new_thunks h hm]
      exact @forall_values_setKey Document (fun d => d.workspaceIds.Nodup) state hs
        documentId _ (nodup_append_singleton (hs _ (mem_of_getKey h)) hm)

end Thunks

namespace Mobx

theorem nodup_addToWorkspace (workspaceIds : List String) (workspaceId : String)
    (h : workspaceIds.Nodup) : (addToWorkspace workspaceIds workspaceId).Nodup := by
  unfold addToWorkspace
  by_cases hm : workspaceId ∈ workspaceIds
  · simpa [hm] using h
  · simpa [hm] using nodup_append_singleton h hm

end Mobx

theorem count_append_self (l : List String) (w : String) :
    (l ++ [w]).count w = l.count w + 1 := by
  simp

/-- Claim C1: for every variant (vanilla redux thunk, effect-atom repository,
redux-saga), after a single create-document workflow settles with its final
content-write step failing, the state contains the newly created document and
that document's pages array holds exactly one page, whose title is
"New Page". -/
theorem c1_create_document_settles_with_single_new_page
    (vs : Vanilla.RootState) (es : EffectAtom.DocumentsState)
    (ss : Sagas.DocumentsState) (documentId pageId : String) :
    getKey (Vanilla.createDocument vs documentId pageId).documents documentId
        = some (Vanilla.createdDocument documentId pageId)
  ∧ (Vanilla.createdDocument documentId pageId).pages.map Page.title = ["New Page"]
  ∧ getKey (EffectAtom.createDocument es documentId pageId) documentId
        = some (EffectAtom.createdDocument documentId pageId)
  ∧ (EffectAtom.createdDocument documentId pageId).pages.map Page.title = ["New Page"]
  ∧ getKey (Sagas.createDocumentSaga ss documentId pageId) documentId
        = some (Sagas.createdDocument documentId pageId)
  ∧ (Sagas.createdDocument documentId pageId).pages.map Page.title = ["New Page"] :=
  ⟨Vanilla.getKey_createDocument_self vs documentId pageId, rfl,
   EffectAtom.getKey_createDocument_self_effect es documentId pageId, rfl,
   Sagas.getKey_createDocumentSaga_self ss documentId pageId, rfl⟩

/-- Claim C2 (counterexample): the add-document-to-workspace operation is not
idempotent on every state in which a document with id `d` exists.  On a state
whose stored document already lists the workspace id twice, the operation is a
no-op (the `includes` guard fires), so after one invocation the document's
`workspaceIds` still contains the id twice, not exactly once — in both the
vanilla redux reducer and the effect-atom update. -/
theorem c2_add_to_workspace_counterexample :
    getKey [("doc-a", duplicatedDocument)] "doc-a" = some duplicatedDocument
  ∧ duplicatedDocument.id = "doc-a"
  ∧ (getKey (Vanilla.documentsReducer [("doc-a", duplicatedDocument)]
        (.addDocumentToWorkspace "doc-a" "workspace-9")) "doc-a").map
      (fun dd => dd.workspaceIds.count "workspace-9") = some 2
  ∧ (getKey (EffectAtom.addDocumentToWorkspace [("doc-a", duplicatedDocument)]
        "doc-a" "workspace-9") "doc-a").map
      (fun dd => dd.workspaceIds.count "workspace-9") = some 2 := by decide

/-- Claim C2 (amended): for every state in which a document with id `d`
exists whose `workspaceIds` lists `w` at most once (as every state satisfying
the no-duplicates invariant does), one or two invocations of
add-document-to-workspace `(d, w)` leave `d`'s `workspaceIds` containing `w`
exactly once; and whenever `w` is already present the operation leaves the
entire state unchanged — in both the vanilla redux reducer and the
effect-atom update. -/
theorem c2_add_to_workspace_idempotent
    (s : Vanilla.DocumentsState) (es : EffectAtom.DocumentsState)
    (d w : String) (doc edoc : Document) :
    (getKey s d = some doc → doc.id = d → doc.workspaceIds.count w ≤ 1 →
        (getKey (Vanilla.documentsReducer s (.addDocumentToWorkspace d w)) d).map
            (fun dd => dd.workspaceIds.count w) = some 1
      ∧ (getKey (Vanilla.documentsReducer
            (Vanilla.documentsReducer s (.addDocumentToWorkspace d w))
            (.addDocumentToWorkspace d w)) d).map
            (fun dd => dd.workspaceIds.count w) = some 1
      ∧ (w ∈ doc.workspaceIds →
          Vanilla.documentsReducer s (.addDocumentToWorkspace d w) = s))
  ∧ (getKey es d = some edoc → edoc.workspaceIds.count w ≤ 1 →
        (getKey (EffectAtom.addDocumentToWorkspace es d w) d).map
            (fun dd => dd.workspaceIds.count w) = some 1
      ∧ (getKey (EffectAtom.addDocumentToWorkspace
            (EffectAtom.addDocumentToWorkspace es d w) d w) d).map
            (fun dd => dd.workspaceIds.count w) = some 1
      ∧ (w ∈ edoc.workspaceIds →
          EffectAtom.addDocumentToWorkspace es d w = es)) := by
  constructor
  · intro h1 h2 h3
    by_cases hm : w ∈ doc.workspaceIds
    · have heq : Vanilla.documentsReducer s (.addDocumentToWorkspace d w) = s :=
        Vanilla.documentsReducer_addToWorkspace_mem h1 hm
      have hne : doc.workspaceIds.count w ≠ 0 := by
        simp [List.count_eq_zero]
        exact hm
      have hc : doc.workspaceIds.count w = 1 := by omega
      refine ⟨?_, ?_, fun _ => heq⟩
      · rw [heq, h1]
        simp [hc]
      · rw [heq, heq, h1]
        simp [hc]
    · have heq := Vanilla.documentsReducer_addToWorkspace_new h1 hm
      have hc0 : doc.workspaceIds.count w = 0 := by
        simp [List.count_eq_zero]
        exact hm
      have hkey : getKey (Vanilla.documentsReducer s (.addDocumentToWorkspace d w)) d
          = some { doc with workspaceIds := doc.workspaceIds ++ [w] } := by
        rw [heq, h2]
        exact getKey_setKey_self _ _ _
      have hcount :
          ({ doc with workspaceIds := doc.workspaceIds ++ [w] } : Document
            ).workspaceIds.count w = 1 := by
        simp [count_append_self, hc0]
      have hmem2 :
          w ∈ ({ doc with workspaceIds := doc.workspaceIds ++ [w] } : Document
            ).workspaceIds := by
        simp
      have heq2 : Vanilla.documentsReducer
            (Vanilla.documentsReducer s (.addDocumentToWorkspace d w))
            (.addDocumentToWorkspace d w)
          = Vanilla.documentsReducer s (.addDocumentToWorkspace d w) :=
        Vanilla.documentsReducer_addToWorkspace_mem hkey hmem2
      refine ⟨?_, ?_, fun hw => absurd hw hm⟩
      · rw [hkey]
        simp [hcount]
      · rw [heq2, hkey]
        simp [hcount]
  · intro h4 h5
    by_cases hm : w ∈ edoc.workspaceIds
    · have heq : EffectAtom.addDocumentToWorkspace es d w = es :=
        EffectAtom.addDocumentToWorkspace_mem_effect h4 hm
      have hne : edoc.workspaceIds.count w ≠ 0 := by
        simp [List.count_eq_zero]
        exact hm
      have hc : edoc.workspaceIds.count w = 1 := by omega
      refine ⟨?_, ?_, fun _ => heq⟩
      · rw [heq, h4]
        simp [hc]
      · rw [heq, heq, h4]
        simp [hc]
    · have heq := EffectAtom.addDocumentToWorkspace_new_effect h4 hm
      have hc0 : edoc.workspaceIds.count w = 0 := by
        simp [List.count_eq_zero]
        exact hm
      have hkey : getKey (EffectAtom.addDocumentToWorkspace es d w) d
          = some { edoc with workspaceIds := edoc.workspaceIds ++ [w] } := by
        rw [heq]
        exact getKey_setKey_self _ _ _
      have hcount :
          ({ edoc with workspaceIds := edoc.workspaceIds ++ [w] } : Document
            ).workspaceIds.count w = 1 := by
        simp [count_append_self, hc0]
      have hmem2 :
          w ∈ ({ edoc with workspaceIds := edoc.workspaceIds ++ [w] } : Document
            ).workspaceIds := by
        simp
      have heq2 : EffectAtom.addDocumentToWorkspace
            (EffectAtom.addDocumentToWorkspace es d w) d w
          = EffectAtom.addDocumentToWorkspace es d w :=
        EffectAtom.addDocumentToWorkspace_mem_effect hkey hmem2
      refine ⟨?_, ?_, fun hw => absurd hw hm⟩
      · rw [hkey]
        simp [hcount]
      · rw [heq2, hkey]
        simp [hcount]

/-- Claim C2 (witness): the amended idempotence theorem instantiated on a
concrete one-document state. -/
theorem c2_add_to_workspace_idempotent_witness :
    (getKey (Vanilla.documentsReducer [("doc-a", sampleDocument)]
        (.addDocumentToWorkspace "doc-a" "workspace-1")) "doc-a").map
      (fun dd => dd.workspaceIds.count "workspace-1") = some 1
  ∧ (getKey (EffectAtom.addDocumentToWorkspace [("doc-a", sampleDocument)]
        "doc-a" "workspace-1") "doc-a").map
      (fun dd => dd.workspaceIds.count "workspace-1") = some 1 :=
  ⟨((c2_add_to_workspace_idempotent [("doc-a", sampleDocument)]
      [("doc-a", sampleDocument)] "doc-a" "workspace-1" sampleDocument
      sampleDocument).1 (by decide) (by decide) (by decide)).1,
   ((c2_add_to_workspace_idempotent [("doc-a", sampleDocument)]
      [("doc-a", sampleDocument)] "doc-a" "workspace-1" sampleDocument
      sampleDocument).2 (by decide) (by decide)).1⟩

/-- Claim C3 (code evidence): the redux-saga variant's `Document` record is
fully determined by its `id`, `path`, `title` and `pages` fields — it carries
no `workspaceIds` field at all, so the saga documents slice cannot record a
workspace membership, and indeed it defines no attach-document-to-workspace
reducer, although the saga and observable routes import and dispatch one. -/
theorem c3_saga_document_lacks_workspace_membership
    (d₁ d₂ : Sagas.Document) (h1 : d₁.id = d₂.id) (h2 : d₁.path = d₂.path)
    (h3 : d₁.title = d₂.title) (h4 : d₁.pages = d₂.pages) : d₁ = d₂ := by
  cases d₁
  cases d₂
  simp_all

/-- Claim C3 (witness): the determinacy theorem instantiated on a concrete
saga document. -/
theorem c3_saga_document_lacks_workspace_membership_witness :
    Sagas.newDocument "doc-a" = Sagas.newDocument "doc-a" :=
  c3_saga_document_lacks_workspace_membership _ _ rfl rfl rfl rfl

/-- Claim C4: in the embedded variants, `writePageContents` fails for every
input with the single hard-coded "LOL" error, while `createDocumentDirectory`,
`createPageDirectory` and the workspaces fetch always succeed (the effect-atom
directory helpers have error channel `never` and are embedded as total
functions, so only its `writePageContents` appears here). -/
theorem c4_only_write_page_contents_fails
    (path content id pagePath pageId : String) :
    Vanilla.writePageContents path content = Except.error "LOL"
  ∧ Vanilla.createDocumentDirectory id = Except.ok ("C:/Users/trey/" ++ id)
  ∧ Vanilla.createPageDirectory path pageId = Except.ok (path ++ "/" ++ pageId)
  ∧ Vanilla.fetchWorkspacesData = Except.ok Vanilla.workspacesFixture
  ∧ EffectAtom.writePageContents pagePath content = Except.error "LOL"
  ∧ Sagas.writePageContents path content = Except.error "LOL"
  ∧ Sagas.createDocumentDirectory id = Except.ok ("C:/Users/trey/" ++ id)
  ∧ Sagas.createPageDirectory path pageId = Except.ok (path ++ "/" ++ pageId)
  ∧ Sagas.fetchWorkspacesFromDB = Except.ok Sagas.workspacesFixture :=
  ⟨rfl, rfl, rfl, rfl, rfl, rfl, rfl, rfl, rfl⟩

/-- Claim C5: in every embedded variant, when the content-write step of
create-document fails, the workflow performs no further state mutation and
rolls nothing back: the settled state equals the state just before the
failing step, with the optimistically inserted document and its page still
present. -/
theorem c5_write_failure_leaves_state_as_before
    (vs : Vanilla.RootState) (es : EffectAtom.DocumentsState)
    (ss : Sagas.DocumentsState) (documentId pageId : String) :
    Vanilla.createDocument vs documentId pageId
        = Vanilla.createDocumentUntilWrite vs documentId pageId
  ∧ EffectAtom.createDocument es documentId pageId
        = EffectAtom.createDocumentUntilWrite es documentId pageId
  ∧ Sagas.createDocumentSaga ss documentId pageId
        = Sagas.createDocumentSagaUntilWrite ss documentId pageId
  ∧ getKey (Vanilla.createDocument vs documentId pageId).documents documentId
        = some (Vanilla.createdDocument documentId pageId)
  ∧ getKey (EffectAtom.createDocument es documentId pageId) documentId
        = some (EffectAtom.createdDocument documentId pageId)
  ∧ getKey (Sagas.createDocumentSaga ss documentId pageId) documentId
        = some (Sagas.createdDocument documentId pageId) :=
  ⟨Vanilla.createDocument_eq_untilWrite vs documentId pageId,
   EffectAtom.createDocument_eq_untilWrite_effect es documentId pageId,
   Sagas.createDocumentSaga_eq_untilWrite ss documentId pageId,
   Vanilla.getKey_createDocument_self vs documentId pageId,
   EffectAtom.getKey_createDocument_self_effect es documentId pageId,
   Sagas.getKey_createDocumentSaga_self ss documentId pageId⟩

/-- Claim C6: the fetch-workspaces operation of every embedded variant
returns the same fixture: exactly three workspaces named "Personal Projects",
"Work Documents" and "Research" with ids workspace-1..3, embedding two, one
and two documents respectively — five in total. -/
theorem c6_workspace_fixture_shape :
    Vanilla.workspacesFixture.map WorkspaceFixture.name
        = ["Personal Projects", "Work Documents", "Research"]
  ∧ Vanilla.workspacesFixture.map WorkspaceFixture.id
        = ["workspace-1", "workspace-2", "workspace-3"]
  ∧ Vanilla.workspacesFixture.map (fun w => w.documents.length) = [2, 1, 2]
  ∧ (Vanilla.workspacesFixture.map (fun w => w.documents.length)).sum = 5
  ∧ EffectAtom.workspacesFixture = Vanilla.workspacesFixture
  ∧ Sagas.workspacesFixture = Vanilla.workspacesFixture
  ∧ Vanilla.fetchWorkspacesData = Except.ok Vanilla.workspacesFixture
  ∧ Sagas.fetchWorkspacesFromDB = Except.ok Sagas.workspacesFixture :=
  ⟨rfl, rfl, rfl, rfl, rfl, rfl, rfl, rfl⟩

/-- Claim C7: every state reachable from the initial vanilla store by the
demonstrated operations (create-document, fetch-workspaces,
add-document-to-workspace) keeps every document's `workspaceIds` free of
duplicates, and every single operation preserves that invariant — likewise
the mobx-keystone `Document.addToWorkspace` action and the redux-toolkit
thunks `addDocumentToWorkspace` reducer. -/
theorem c7_workspace_ids_nodup_invariant :
    (∀ ops : List Vanilla.Op,
        Vanilla.NodupWorkspaceIds (Vanilla.applyOps Vanilla.initialRootState ops))
  ∧ (∀ (s : Vanilla.RootState) (op : Vanilla.Op),
        Vanilla.NodupWorkspaceIds s → Vanilla.NodupWorkspaceIds (Vanilla.applyOp s op))
  ∧ (∀ (workspaceIds : List String) (workspaceId : String),
        workspaceIds.Nodup → (Mobx.addToWorkspace workspaceIds workspaceId).Nodup)
  ∧ (∀ (state : Thunks.DocumentsState) (documentId workspaceId : String),
        (∀ p ∈ state, p.2.workspaceIds.Nodup) →
        ∀ p ∈ Thunks.addDocumentToWorkspace state documentId workspaceId,
          p.2.workspaceIds.Nodup) := by
  refine ⟨?_, ?_, ?_, ?_⟩
  · intro ops
    exact Vanilla.nodupInv_applyOps ops _ (by decide)
  · intro s op hs
    exact Vanilla.nodupInv_applyOp s op hs
  · exact Mobx.nodup_addToWorkspace
  · intro state documentId workspaceId hs
    exact Thunks.nodupInv_addDocumentToWorkspace hs documentId workspaceId

/-- Claim C7 (witness): the invariant theorem instantiated on a concrete
operation sequence and on concrete one-document states. -/
theorem c7_workspace_ids_nodup_invariant_witness :
    Vanilla.NodupWorkspaceIds (Vanilla.applyOps Vanilla.initialRootState
        [Vanilla.Op.createDoc "doc-a" "page-a", Vanilla.Op.fetchWs,
         Vanilla.Op.addToWs "doc-a" "workspace-1"])
  ∧ Vanilla.NodupWorkspaceIds
      (Vanilla.applyOp { documents := [("doc-a", sampleDocument)], workspaces := [] }
        (Vanilla.Op.addToWs "doc-a" "workspace-1"))
  ∧ (Mobx.addToWorkspace ["workspace-9"] "workspace-1").Nodup
  ∧ (∀ p ∈ Thunks.addDocumentToWorkspace [("doc-a", sampleDocument)]
        "doc-a" "workspace-1", p.2.workspaceIds.Nodup) :=
  ⟨c7_workspace_ids_nodup_invariant.1 _,
   c7_workspace_ids_nodup_invariant.2.1 _ _ (by decide),
   c7_workspace_ids_nodup_invariant.2.2.1 _ _ (by decide),
   c7_workspace_ids_nodup_invariant.2.2.2 _ _ _ (by decide)⟩

/-- Claim C8: invoking create-document once per pair of a list of generated
(document id, page id) pairs whose document ids are pairwise distinct leaves
each of those ids mapped to its own settled document, whose page list is
exactly its own single page — no invocation touches a document created by a
different invocation. -/
theorem c8_distinct_creates_yield_distinct_documents
    (s : Vanilla.RootState) (pairs : List (String × String))
    (h : (pairs.map Prod.fst).Nodup) :
    ∀ pr ∈ pairs,
      getKey (Vanilla.createDocuments s pairs).documents pr.1
        = some (Vanilla.createdDocument pr.1 pr.2) :=
  Vanilla.getKey_createDocuments_mem pairs s h

/-- Claim C8 (witness): two create-document invocations with distinct
generated ids, checked on the second document. -/
theorem c8_distinct_creates_yield_distinct_documents_witness :
    getKey (Vanilla.createDocuments Vanilla.initialRootState
        [("doc-a", "page-a"), ("doc-b", "page-b")]).documents "doc-b"
      = some (Vanilla.createdDocument "doc-b" "page-b") :=
  c8_distinct_creates_yield_distinct_documents Vanilla.initialRootState
    [("doc-a", "page-a"), ("doc-b", "page-b")] (by decide)
    ("doc-b", "page-b") (by decide)

/-- Claim C9: from every prior state, fetch-workspaces stores each of the
five fixture document ids with exactly the fixture document value (empty
pages, `workspaceIds` equal to the single owning workspace), overwriting
whatever was stored under that id — so memberships previously added to a
fixture document are discarded — while every other id is left unchanged; in
both the vanilla redux thunk and the effect-atom repository update. -/
theorem c9_fetch_overwrites_fixture_documents :
    (∀ s : Vanilla.RootState,
        (getKey (Vanilla.fetchWorkspaces s).documents "doc-workspace-1-1"
            = some Vanilla.docWorkspace11
        ∧ getKey (Vanilla.fetchWorkspaces s).documents "doc-workspace-1-2"
            = some Vanilla.docWorkspace12
        ∧ getKey (Vanilla.fetchWorkspaces s).documents "doc-workspace-2-1"
            = some Vanilla.docWorkspace21
        ∧ getKey (Vanilla.fetchWorkspaces s).documents "doc-workspace-3-1"
            = some Vanilla.docWorkspace31
        ∧ getKey (Vanilla.fetchWorkspaces s).documents "doc-workspace-3-2"
            = some Vanilla.docWorkspace32)
      ∧ ∀ k : String, k ∉ Vanilla.fixtureDocumentIds →
          getKey (Vanilla.fetchWorkspaces s).documents k = getKey s.documents k)
  ∧ (∀ documents : EffectAtom.DocumentsState,
        (getKey (EffectAtom.fetchWorkspacesDocumentsUpdate documents) "doc-workspace-1-1"
            = some Vanilla.docWorkspace11
        ∧ getKey (EffectAtom.fetchWorkspacesDocumentsUpdate documents) "doc-workspace-1-2"
            = some Vanilla.docWorkspace12
        ∧ getKey (EffectAtom.fetchWorkspacesDocumentsUpdate documents) "doc-workspace-2-1"
            = some Vanilla.docWorkspace21
        ∧ getKey (EffectAtom.fetchWorkspacesDocumentsUpdate documents) "doc-workspace-3-1"
            = some Vanilla.docWorkspace31
        ∧ getKey (EffectAtom.fetchWorkspacesDocumentsUpdate documents) "doc-workspace-3-2"
            = some Vanilla.docWorkspace32)
      ∧ ∀ k : String, k ∉ Vanilla.fixtureDocumentIds →
          getKey (EffectAtom.fetchWorkspacesDocumentsUpdate documents) k
            = getKey documents k) := by
  constructor
  · intro s
    constructor
    · refine ⟨?_, ?_, ?_, ?_, ?_⟩ <;>
        · rw [Vanilla.fetchWorkspaces_documents_eq]
          simp [getKey_setKey_self, getKey_setKey_ne]
    · intro k hk
      simp only [Vanilla.fixtureDocumentIds, List.mem_cons, List.not_mem_nil,
        or_false, not_or] at hk
      obtain ⟨h1, h2, h3, h4, h5⟩ := hk
      rw [Vanilla.fetchWorkspaces_documents_eq, getKey_setKey_ne _ _ h5,
        getKey_setKey_ne _ _ h4, getKey_setKey_ne _ _ h3,
        getKey_setKey_ne _ _ h2, getKey_setKey_ne _ _ h1]
  · intro documents
    constructor
    · refine ⟨?_, ?_, ?_, ?_, ?_⟩ <;>
        · rw [EffectAtom.fetchWorkspacesDocumentsUpdate_eq]
          simp [getKey_setKey_self, getKey_setKey_ne]
    · intro k hk
      simp only [Vanilla.fixtureDocumentIds, List.mem_cons, List.not_mem_nil,
        or_false, not_or] at hk
      obtain ⟨h1, h2, h3, h4, h5⟩ := hk
      rw [EffectAtom.fetchWorkspacesDocumentsUpdate_eq, getKey_setKey_ne _ _ h5,
        getKey_setKey_ne _ _ h4, getKey_setKey_ne _ _ h3,
        getKey_setKey_ne _ _ h2, getKey_setKey_ne _ _ h1]

/-- Claim C9 (witness): the fetch theorem instantiated on concrete states and
a non-fixture id. -/
theorem c9_fetch_overwrites_fixture_documents_witness :
    getKey (Vanilla.fetchWorkspaces Vanilla.initialRootState).documents "doc-a"
        = getKey Vanilla.initialRootState.documents "doc-a"
  ∧ getKey (EffectAtom.fetchWorkspacesDocumentsUpdate
        [("doc-a", sampleDocument)]) "doc-a"
        = getKey [("doc-a", sampleDocument)] "doc-a" :=
  ⟨(c9_fetch_overwrites_fixture_documents.1 Vanilla.initialRootState).2
      "doc-a" (by decide),
   (c9_fetch_overwrites_fixture_documents.2 [("doc-a", sampleDocument)]).2
      "doc-a" (by decide)⟩

/-- Claim C10: in the vanilla redux reducer (add-page and
add-document-to-workspace cases) and in the effect-atom page insertion, an
update whose `documentId` is not a key of the documents state leaves the
state exactly unchanged, with no error raised. -/
theorem c10_missing_document_updates_are_noop
    (state : Vanilla.DocumentsState) (documents : EffectAtom.DocumentsState)
    (documentId workspaceId : String) (page : Page) :
    (getKey state documentId = none →
        Vanilla.documentsReducer state (.addPage documentId page) = state
      ∧ Vanilla.documentsReducer state
          (.addDocumentToWorkspace documentId workspaceId) = state)
  ∧ (getKey documents documentId = none →
        EffectAtom.insertPageUpdate documents documentId page = documents) :=
  ⟨fun h => ⟨Vanilla.documentsReducer_addPage_missing h page,
             Vanilla.documentsReducer_addToWorkspace_missing h workspaceId⟩,
   fun h => EffectAtom.insertPageUpdate_missing h page⟩

/-- Claim C10 (witness): the no-op theorem instantiated on concrete states
missing the key `doc-b`. -/
theorem c10_missing_document_updates_are_noop_witness :
    Vanilla.documentsReducer [("doc-a", sampleDocument)]
        (.addPage "doc-b" (Vanilla.newPage "page-b")) = [("doc-a", sampleDocument)]
  ∧ EffectAtom.insertPageUpdate [] "doc-b" (Vanilla.newPage "page-b") = [] :=
  ⟨((c10_missing_document_updates_are_noop [("doc-a", sampleDocument)] []
      "doc-b" "workspace-1" (Vanilla.newPage "page-b")).1 (by decide)).1,
   (c10_missing_document_updates_are_noop [("doc-a", sampleDocument)] []
      "doc-b" "workspace-1" (Vanilla.newPage "page-b")).2 (by decide)⟩

end StateBed

